import Mathlib

/-!
Verification of the authentication/session subsystem of the dahua-vto
example scripts (`examples/python/get_id.py`, `examples/python/_session_util.py`).

The Python source is shallowly embedded: pure computations (the double-MD5
credential digest) become Lean functions on `Nat`-valued byte lists; the
file-backed session store becomes explicit state passing over a `FileState`
type; the two-step login flow becomes a function of the initial file state
and the two (possibly failed) RPC responses, returning the resulting trace.
-/

set_option maxRecDepth 100000

namespace DahuaVTO

/-! ### MD5 (RFC 1321), executable over byte lists

Bytes are `Nat`s below 256; 32-bit words are `Nat`s reduced modulo 2^32.
This models Python's `hashlib.md5(...).hexdigest()`.
-/

/-- Reduce a natural number to a 32-bit word. -/
def u32 (n : Nat) : Nat := n % 4294967296

/-- 32-bit left rotation. -/
def rotl (x s : Nat) : Nat :=
  u32 ((x <<< s) + (x >>> (32 - s)))

/-- Bitwise NOT on a 32-bit word. -/
def wnot (x : Nat) : Nat := Nat.xor x 4294967295

/-- The MD5 sine-derived constant table `K` (RFC 1321). -/
def md5K : List Nat :=
  [0xd76aa478, 0xe8c7b756, 0x242070db, 0xc1bdceee,
   0xf57c0faf, 0x4787c62a, 0xa8304613, 0xfd469501,
   0x698098d8, 0x8b44f7af, 0xffff5bb1, 0x895cd7be,
   0x6b901122, 0xfd987193, 0xa679438e, 0x49b40821,
   0xf61e2562, 0xc040b340, 0x265e5a51, 0xe9b6c7aa,
   0xd62f105d, 0x02441453, 0xd8a1e681, 0xe7d3fbc8,
   0x21e1cde6, 0xc33707d6, 0xf4d50d87, 0x455a14ed,
   0xa9e3e905, 0xfcefa3f8, 0x676f02d9, 0x8d2a4c8a,
   0xfffa3942, 0x8771f681, 0x6d9d6122, 0xfde5380c,
   0xa4beea44, 0x4bdecfa9, 0xf6bb4b60, 0xbebfbc70,
   0x289b7ec6, 0xeaa127fa, 0xd4ef3085, 0x04881d05,
   0xd9d4d039, 0xe6db99e5, 0x1fa27cf8, 0xc4ac5665,
   0xf4292244, 0x432aff97, 0xab9423a7, 0xfc93a039,
   0x655b59c3, 0x8f0ccc92, 0xffeff47d, 0x85845dd1,
   0x6fa87e4f, 0xfe2ce6e0, 0xa3014314, 0x4e0811a1,
   0xf7537e82, 0xbd3af235, 0x2ad7d2bb, 0xeb86d391]

/-- The MD5 per-round shift amounts (RFC 1321). -/
def md5S : List Nat :=
  [7, 12, 17, 22, 7, 12, 17, 22, 7, 12, 17, 22, 7, 12, 17, 22,
   5, 9, 14, 20, 5, 9, 14, 20, 5, 9, 14, 20, 5, 9, 14, 20,
   4, 11, 16, 23, 4, 11, 16, 23, 4, 11, 16, 23, 4, 11, 16, 23,
   6, 10, 15, 21, 6, 10, 15, 21, 6, 10, 15, 21, 6, 10, 15, 21]

/-- MD5 running state: the four 32-bit registers. -/
structure Md5State where
  a : Nat
  b : Nat
  c : Nat
  d : Nat
deriving Repr

/-- Initial MD5 register values (RFC 1321). -/
def md5Init : Md5State := ⟨0x67452301, 0xefcdab89, 0x98badcfe, 0x10325476⟩

/-- Little-endian 32-bit word `j` of a 64-byte chunk. -/
def md5Word (chunk : List Nat) (j : Nat) : Nat :=
  chunk.getD (4 * j) 0 + 256 * chunk.getD (4 * j + 1) 0 +
    65536 * chunk.getD (4 * j + 2) 0 + 16777216 * chunk.getD (4 * j + 3) 0

/-- One MD5 round `i` (0 ≤ i < 64) on registers `(a,b,c,d)` for a chunk. -/
def md5Round (chunk : List Nat) (st : Md5State) (i : Nat) : Md5State :=
  let a := st.a; let b := st.b; let c := st.c; let d := st.d
  let fg : Nat × Nat :=
    if i < 16 then
      (Nat.lor (Nat.land b c) (Nat.land (wnot b) d), i)
    else if i < 32 then
      (Nat.lor (Nat.land d b) (Nat.land (wnot d) c), (5 * i + 1) % 16)
    else if i < 48 then
      (Nat.xor b (Nat.xor c d), (3 * i + 5) % 16)
    else
      (Nat.xor c (Nat.lor b (wnot d)), (7 * i) % 16)
  let f := fg.1
  let g := fg.2
  let newB := u32 (b + rotl (u32 (a + f + md5K.getD i 0 + md5Word chunk g)) (md5S.getD i 0))
  ⟨d, newB, b, c⟩

/-- Process one 64-byte chunk: 64 rounds, then add into the running state. -/
def md5Chunk (st : Md5State) (chunk : List Nat) : Md5State :=
  let r := (List.range 64).foldl (md5Round chunk) st
  ⟨u32 (st.a + r.a), u32 (st.b + r.b), u32 (st.c + r.c), u32 (st.d + r.d)⟩

/-- Fold the MD5 compression over successive 64-byte chunks, structurally:
bytes are accumulated into `buf` and compressed whenever 64 are available.
Callers pass padded messages, whose length is a multiple of 64, so the
buffer is empty when the input runs out. -/
def md5Fold (st : Md5State) (buf : List Nat) : List Nat → Md5State
  | [] => st
  | b :: rest =>
    let buf2 := buf ++ [b]
    if buf2.length = 64 then md5Fold (md5Chunk st buf2) [] rest
    else md5Fold st buf2 rest

/-- Fold the MD5 compression over successive 64-byte chunks of a padded
message. -/
def md5Chunks (st : Md5State) (msg : List Nat) : Md5State :=
  md5Fold st [] msg

/-- MD5 padding: append `0x80`, zeros to 56 mod 64, then the 64-bit
little-endian bit length. -/
def md5Pad (msg : List Nat) : List Nat :=
  let len := msg.length
  let zeros := (120 - (len + 1) % 64) % 64
  let bitLen := (8 * len) % 18446744073709551616
  msg ++ [0x80] ++ List.replicate zeros 0 ++
    ((List.range 8).map fun i => (bitLen >>> (8 * i)) % 256)

/-- The 16 digest bytes of an MD5 state, little-endian per register. -/
def md5StateBytes (st : Md5State) : List Nat :=
  [st.a, st.b, st.c, st.d].flatMap fun w =>
    [w % 256, (w >>> 8) % 256, (w >>> 16) % 256, (w >>> 24) % 256]

/-- MD5 digest bytes of a byte-list message. -/
def md5Bytes (msg : List Nat) : List Nat :=
  md5StateBytes (md5Chunks md5Init (md5Pad msg))

/-- Lowercase hexadecimal digit for `n < 16`. -/
def hexChar (n : Nat) : Char :=
  if n < 10 then Char.ofNat (48 + n) else Char.ofNat (87 + n)

/-- Lowercase hex string of a byte list; models Python's `hexdigest()`. -/
def hexOfBytes (bs : List Nat) : String :=
  ⟨bs.flatMap fun b => [hexChar (b / 16), hexChar (b % 16)]⟩

/-- `hashlib.md5(msg).hexdigest()`: lowercase hex MD5 of a byte list. -/
def md5Hex (msg : List Nat) : String := hexOfBytes (md5Bytes msg)

/-- Python's `str.upper()` restricted to ASCII data (hex digests here). -/
def pyUpper (s : String) : String := ⟨s.data.map Char.toUpper⟩

/-- Python's `str.encode("latin-1")`: each code point below 256 becomes one
byte. (Defined on strings within the Latin-1 range; Python raises on larger
code points, which no input in scope contains.) -/
def latin1Encode (s : String) : List Nat := s.data.map Char.toNat

/-! ### AuthHashDeriver — `calculate_dahua_auth_hash` (get_id.py lines 85–103)

The byte `encoding` is passed as a function argument; the Python default
`encoding="latin-1"` is the instantiation at `latin1Encode` (see
`calculate_dahua_auth_hash_default`).
-/

/-- Embedding of `calculate_dahua_auth_hash(username, password, realm,
random_key, encoding)` from get_id.py: double MD5 with uppercase
intermediate hash. -/
def calculate_dahua_auth_hash (username password realm random_key : String)
    (encoding : String → List Nat) : String :=
  let s1 := username ++ ":" ++ realm ++ ":" ++ password
  let h1_lower := md5Hex (encoding s1)
  let h1_upper := pyUpper h1_lower
  let s2 := username ++ ":" ++ random_key ++ ":" ++ h1_upper
  pyUpper (md5Hex (encoding s2))

/-- `calculate_dahua_auth_hash` at its Python default `encoding="latin-1"`,
as called from `login_and_get_session` (get_id.py line 186). -/
def calculate_dahua_auth_hash_default (username password realm random_key : String) : String :=
  calculate_dahua_auth_hash username password realm random_key latin1Encode

/-- The derivation as the specification words it: `s1 = username + ":" +
realm + ":" + password`; `h1 = uppercase(MD5(encode(s1, encoding)))`;
`s2 = username + ":" + randomKey + ":" + h1`; return
`uppercase(MD5(encode(s2, encoding)))`. -/
def derive_spec (username password realm randomKey : String)
    (encoding : String → List Nat) : String :=
  let s1 := username ++ ":" ++ realm ++ ":" ++ password
  let h1 := pyUpper (md5Hex (encoding s1))
  let s2 := username ++ ":" ++ randomKey ++ ":" ++ h1
  pyUpper (md5Hex (encoding s2))

/-! ### SessionStore — `_session_util.py`

The single session file is modelled by `FileState`: absent
(`FileNotFoundError` on read), readable content, or failing with an I/O
error (`OSError`). Strings handled by the store are `List Char`, so that
Python's `str.strip()` becomes a plain list function.
-/

/-- Python's `str.strip()`: remove leading and trailing whitespace. -/
def pyStrip (s : List Char) : List Char :=
  ((s.dropWhile Char.isWhitespace).reverse.dropWhile Char.isWhitespace).reverse

/-- State of the file behind the session store. -/
inductive FileState where
  | absent
  | content (s : List Char)
  | ioError
deriving Repr, DecidableEq

/-- Embedding of `_read_session_from_file` (_session_util.py lines 8–18)
over already-decoded file content: read and strip the file, `sid or None`;
`FileNotFoundError` yields None, any other `OSError` warns and yields
None. This level cannot represent undecodable bytes — the source's
uncaught `UnicodeDecodeError` path on non-UTF-8 content is exposed by the
byte-level model `_read_session_from_file_bytes` below. -/
def _read_session_from_file : FileState → Option (List Char)
  | .absent => none
  | .ioError => none
  | .content s =>
    let sid := pyStrip s
    if sid.isEmpty then none else some sid

/-- Embedding of `_save_session_to_file` (_session_util.py lines 21–28):
overwrite the file with the stripped id plus a trailing newline. -/
def _save_session_to_file (session_id : List Char) : FileState :=
  .content (pyStrip session_id ++ [Char.ofNat 10])

/-- The three `RuntimeError`s `ensure_session` can raise. -/
inductive SessionError where
  /-- "No session found. Run get_id.py first to create session.txt." -/
  | noSessionNonInteractive
  /-- "Empty session id. Aborting." -/
  | emptyManualId
  /-- "No session id provided. Run get_id.py to create one." -/
  | declinedManualEntry
deriving Repr, DecidableEq

/-- Embedding of `ensure_session` (_session_util.py lines 45–74). Console
interaction is injected: `manualYes` is the answer to the yes/no prompt and
`manualInput` the line typed for a manual session id. Returns the session
id together with the resulting file state, or the raised error. -/
def ensure_session (fs : FileState) (interactive : Bool)
    (manualYes : Bool) (manualInput : List Char) :
    Except SessionError (List Char × FileState) :=
  match _read_session_from_file fs with
  | some existing => .ok (existing, fs)
  | none =>
    if !interactive then .error .noSessionNonInteractive
    else if manualYes then
      let sid := pyStrip manualInput
      if sid.isEmpty then .error .emptyManualId
      else .ok (sid, _save_session_to_file sid)
    else .error .declinedManualEntry

/-! ### Byte-level session load

`FileState.content` holds already-decoded text, which hides one failure
path of the source: `open(path, "r", encoding="utf-8")` followed by
`f.read()` raises `UnicodeDecodeError` on non-UTF-8 bytes, and
`UnicodeDecodeError` is a `ValueError` — caught by neither
`except FileNotFoundError` nor `except OSError`, so it propagates out of
`_read_session_from_file`. The byte-level model below represents the file
as raw bytes and decodes them, exposing that path.
-/

/-- State of the session file at the byte level. -/
inductive FileBytes where
  | absent
  | bytes (bs : List Nat)
  | ioError
deriving Repr, DecidableEq

/-- The exception `_read_session_from_file` can propagate. -/
inductive PyError where
  | unicodeDecodeError
deriving Repr, DecidableEq

/-- A UTF-8 continuation byte (`10xxxxxx`). -/
def isCont (b : Nat) : Bool := decide (0x80 ≤ b) && decide (b < 0xC0)

/-- Strict UTF-8 decoding of a byte list, as Python's `utf-8` codec in its
default strict mode: `none` on any malformed sequence — invalid lead or
continuation bytes, overlong encodings, surrogate code points and values
beyond U+10FFFF are all rejected. -/
def utf8Decode : List Nat → Option (List Char)
  | [] => some []
  | b :: rest =>
    if b < 0x80 then
      (utf8Decode rest).map fun cs => Char.ofNat b :: cs
    else if 0xC2 ≤ b ∧ b ≤ 0xDF then
      match rest with
      | b2 :: rest2 =>
        if isCont b2 then
          (utf8Decode rest2).map fun cs =>
            Char.ofNat ((b - 0xC0) * 0x40 + (b2 - 0x80)) :: cs
        else none
      | [] => none
    else if 0xE0 ≤ b ∧ b ≤ 0xEF then
      match rest with
      | b2 :: b3 :: rest3 =>
        let cp := (b - 0xE0) * 0x1000 + (b2 - 0x80) * 0x40 + (b3 - 0x80)
        if isCont b2 ∧ isCont b3 ∧ 0x800 ≤ cp ∧ ¬(0xD800 ≤ cp ∧ cp ≤ 0xDFFF) then
          (utf8Decode rest3).map fun cs => Char.ofNat cp :: cs
        else none
      | _ => none
    else if 0xF0 ≤ b ∧ b ≤ 0xF4 then
      match rest with
      | b2 :: b3 :: b4 :: rest4 =>
        let cp := (b - 0xF0) * 0x40000 + (b2 - 0x80) * 0x1000 +
          (b3 - 0x80) * 0x40 + (b4 - 0x80)
        if isCont b2 ∧ isCont b3 ∧ isCont b4 ∧ 0x10000 ≤ cp ∧ cp ≤ 0x10FFFF then
          (utf8Decode rest4).map fun cs => Char.ofNat cp :: cs
        else none
      | _ => none
    else none

/-- Byte-level embedding of `_read_session_from_file` (_session_util.py
lines 8–18): an absent file (`FileNotFoundError`) and any other `OSError`
yield `None`; otherwise `f.read()` decodes the raw bytes as UTF-8 —
undecodable content raises `UnicodeDecodeError`, which neither `except`
clause catches (`.error`); decodable content is stripped and returned via
`sid or None`. -/
def _read_session_from_file_bytes : FileBytes → Except PyError (Option (List Char))
  | .absent => .ok none
  | .ioError => .ok none
  | .bytes bs =>
    match utf8Decode bs with
    | none => .error .unicodeDecodeError
    | some s =>
      let sid := pyStrip s
      .ok (if sid.isEmpty then none else some sid)

/-! ### LoginHandshake — `login_and_get_session` (get_id.py lines 141–226)

Parsed JSON responses are modelled by `Json`; a device response is an
association list of fields (Python dict, keys unique). The two network
exchanges are injected as the already-parsed responses: `none` stands for
a network error or a non-JSON body (the corresponding `except` branch).
-/

/-- A parsed JSON value as Python's `json` module produces it. -/
inductive Json where
  | null
  | bool (b : Bool)
  | num (n : Int)
  | str (s : String)
  | arr (elems : List Json)
  | obj (fields : List (String × Json))

/-- Python `dict.get(k)` over an object's field list: the value under the
first matching key, or `none` (Python `None`) when the key is absent. -/
def jget (o : List (String × Json)) (k : String) : Option Json :=
  match o with
  | [] => none
  | (k2, v) :: rest => if k2 == k then some v else jget rest k

/-- Python truthiness of a JSON value (`not x` in the source). -/
def pyTruthy : Json → Bool
  | .null => false
  | .bool b => b
  | .num n => n != 0
  | .str s => s != ""
  | .arr elems => !elems.isEmpty
  | .obj fields => !fields.isEmpty

/-- Truthiness of a `dict.get` result; Python `None` is falsy. -/
def optTruthy : Option Json → Bool
  | none => false
  | some j => pyTruthy j

/-- Embedding of `_save_session` (get_id.py lines 132–138) applied to the
value Python computed for `session_id`: `open(path, "w")` truncates the
file first; a string id is then stripped and written with a trailing
newline; any other value (`None` included) raises `AttributeError` at
`.strip()`, which the `except` clause downgrades to a warning — leaving
the already-truncated file empty. -/
def _save_session (session_id : Option Json) : FileState :=
  match session_id with
  | some (.str s) => .content (pyStrip s.data ++ [Char.ofNat 10])
  | _ => .content []

/-- Observable outcome of one `login_and_get_session` run: the value the
function returns (`none` = Python `None`), the session file afterwards,
whether the second RPC request was issued, and the raw response printed by
the step-2 falsy-result branch (line 225), if taken. -/
structure LoginTrace where
  result : Option Json
  fileState : FileState
  step2Sent : Bool
  step2ErrorPayload : Option (List (String × Json))

/-- Embedding of `login_and_get_session` (get_id.py lines 141–226) as a
function of the initial session-file state and the two parsed responses
(`none` = network error or non-JSON body, the `except` branches). The
outer `Option` is `none` exactly when the Python code would raise an
uncaught exception: `.get` on a non-dict `params` value. Validation
mirrors the source: step 1 needs a truthy `result`, a present `params`
key, and truthy `realm`, `random` and top-level `session`; step 2 needs a
truthy `result` and looks the session id up at the top level first,
falling back to `params.session` only when the former is falsy
(short-circuit of Python `or` at line 220). -/
def login_and_get_session (fs : FileState)
    (resp1 resp2 : Option (List (String × Json))) : Option LoginTrace :=
  match resp1 with
  | none => some ⟨none, fs, false, none⟩
  | some o1 =>
    if !optTruthy (jget o1 "result") || (jget o1 "params").isNone then
      some ⟨none, fs, false, none⟩
    else
      match jget o1 "params" with
      | none => some ⟨none, fs, false, none⟩
      | some (.obj ps) =>
        let realm := jget ps "realm"
        let random_key := jget ps "random"
        let temp_session := jget o1 "session"
        if !(optTruthy realm && optTruthy random_key && optTruthy temp_session) then
          some ⟨none, fs, false, none⟩
        else
          match resp2 with
          | none => some ⟨none, fs, true, none⟩
          | some o2 =>
            if optTruthy (jget o2 "result") then
              if optTruthy (jget o2 "session") then
                let sid := jget o2 "session"
                some ⟨sid, _save_session sid, true, none⟩
              else
                match jget o2 "params" with
                | some (.obj ps2) =>
                  let sid := jget ps2 "session"
                  some ⟨sid, _save_session sid, true, none⟩
                | none => some ⟨none, _save_session none, true, none⟩
                | some _ => none
            else
              some ⟨none, fs, true, some o2⟩
      | some _ => none

/-! ### CLI exit statuses (`__main__` blocks) -/

/-- Exit status of the `get_id.py` `__main__` block (lines 229–242), as a
function of the credential fields obtained interactively and of what
`login_and_get_session` returned: `ip` and `username` are stripped before
the emptiness check while the raw password is tested; missing input exits
with status 1 (`SystemExit(1)`), a `None` login result with status 2
(`SystemExit(2)`), and otherwise the script ends normally with status 0. -/
def get_id_main_exit (ip username password : List Char)
    (loginResult : Option Json) : Nat :=
  if (pyStrip ip).isEmpty || (pyStrip username).isEmpty || password.isEmpty then 1
  else
    match loginResult with
    | none => 2
    | some _ => 0

/-- Exit status of the `_session_util.py` `__main__` block (lines 80–87):
it runs `ensure_session(interactive=True)`; a `RuntimeError` is caught and
printed, after which the script falls off the end — so the process exits
with status 0 on the failure path just as on the success path. -/
def session_util_main_exit (fs : FileState) (manualYes : Bool)
    (manualInput : List Char) : Nat :=
  match ensure_session fs true manualYes manualInput with
  | .ok _ => 0
  | .error _ => 0

/-! ### Theorems -/

/-- Sanity: MD5 of the empty message matches the RFC 1321 test vector. -/
theorem md5_empty_vector : md5Hex [] = "d41d8cd98f00b204e9800998ecf8427e" := by
  decide

/-- Sanity: MD5 of `"abc"` matches the RFC 1321 test vector. -/
theorem md5_abc_vector :
    md5Hex (latin1Encode "abc") = "900150983cd24fb0d6963f7d28e17f72" := by
  decide

/-- `dict.get` truthiness: Python `None` is falsy. -/
theorem optTruthy_none : optTruthy none = false := rfl

/-- The empty string is falsy. -/
theorem optTruthy_empty_str : optTruthy (some (Json.str "")) = false := rfl

/-- Saving a `None` session id truncates the file and writes nothing. -/
theorem save_session_of_none : _save_session none = FileState.content [] := rfl

/-- `dropWhile` never lengthens a list. -/
theorem dropWhile_length_le (p : Char → Bool) :
    ∀ l : List Char, (l.dropWhile p).length ≤ l.length
  | [] => Nat.le_refl 0
  | c :: t => by
    simp only [List.dropWhile]
    cases hp : p c
    · simp
    · exact Nat.le_succ_of_le (dropWhile_length_le p t)

/-- A `dropWhile` that preserves length drops nothing. -/
theorem dropWhile_eq_self_of_length (p : Char → Bool) (l : List Char)
    (h : (l.dropWhile p).length = l.length) : l.dropWhile p = l := by
  cases l with
  | nil => rfl
  | cons c t =>
    simp only [List.dropWhile] at h ⊢
    cases hp : p c
    · simp
    · simp only [hp] at h ⊢
      have := dropWhile_length_le p t
      simp at h
      omega

/-- A fixed point of `pyStrip` is a fixed point of both one-sided trims. -/
theorem pyStrip_fixed_both (t : List Char) (h : pyStrip t = t) :
    t.dropWhile Char.isWhitespace = t ∧
      t.reverse.dropWhile Char.isWhitespace = t.reverse := by
  unfold pyStrip at h
  have hlen : (((t.dropWhile Char.isWhitespace).reverse.dropWhile
      Char.isWhitespace).reverse).length = t.length := by rw [h]
  have h1 : ((t.dropWhile Char.isWhitespace).reverse.dropWhile
      Char.isWhitespace).length ≤ (t.dropWhile Char.isWhitespace).length := by
    have := dropWhile_length_le Char.isWhitespace
      (t.dropWhile Char.isWhitespace).reverse
    simpa using this
  have h2 : (t.dropWhile Char.isWhitespace).length ≤ t.length :=
    dropWhile_length_le Char.isWhitespace t
  simp only [List.length_reverse] at hlen
  have hfront : t.dropWhile Char.isWhitespace = t :=
    dropWhile_eq_self_of_length _ _ (by omega)
  rw [hfront] at h
  refine ⟨hfront, ?_⟩
  have := congrArg List.reverse h
  simpa using this

/-- Appending a newline to a non-empty stripped token strips back to the
token itself. -/
theorem pyStrip_append_newline (t : List Char) (h : pyStrip t = t)
    (hne : t ≠ []) : pyStrip (t ++ [Char.ofNat 10]) = t := by
  obtain ⟨hfront, hback⟩ := pyStrip_fixed_both t h
  cases t with
  | nil => exact absurd rfl hne
  | cons c t' =>
    have hc : Char.isWhitespace c = false := by
      by_contra hcc
      simp only [List.dropWhile, Bool.not_eq_false] at hfront hcc
      rw [hcc] at hfront
      have := dropWhile_length_le Char.isWhitespace t'
      have := congrArg List.length hfront
      simp at this
      omega
    unfold pyStrip
    have hstep : (c :: t' ++ [Char.ofNat 10]).dropWhile Char.isWhitespace =
        c :: t' ++ [Char.ofNat 10] := by
      simp only [List.cons_append, List.dropWhile, hc, List.append_eq]
    rw [hstep]
    have hnl : Char.isWhitespace (Char.ofNat 10) = true := by decide
    have : (c :: t' ++ [Char.ofNat 10]).reverse =
        Char.ofNat 10 :: (c :: t').reverse := by simp
    rw [this]
    simp only [List.dropWhile, hnl, hback]
    simp

/-- C1: for every username, password, realm, randomKey and encoding,
`calculate_dahua_auth_hash` returns `uppercase(MD5(encode(s2, encoding)))`
with `s1 = username + ":" + realm + ":" + password`,
`h1 = uppercase(MD5(encode(s1, encoding)))` and
`s2 = username + ":" + randomKey + ":" + h1`; the encoding defaults to
Latin-1. For credentials ("admin","pass") and challenge (realm "Login1",
random "123456"), the intermediate digest is the MD5-then-uppercase of
"admin:Login1:pass" and the final digest the MD5-then-uppercase of
"admin:123456:" + h1Upper, both validated against concrete MD5 values. -/
theorem C1_auth_hash_derivation :
    (∀ (username password realm randomKey : String) (encoding : String → List Nat),
      calculate_dahua_auth_hash username password realm randomKey encoding =
        derive_spec username password realm randomKey encoding) ∧
    (∀ username password realm randomKey,
      calculate_dahua_auth_hash_default username password realm randomKey =
        calculate_dahua_auth_hash username password realm randomKey latin1Encode) ∧
    pyUpper (md5Hex (latin1Encode "admin:Login1:pass")) =
      "5B8686DD3A72513DFB01470F55AEF5C4" ∧
    calculate_dahua_auth_hash_default "admin" "pass" "Login1" "123456" =
      pyUpper (md5Hex (latin1Encode
        ("admin:123456:" ++ "5B8686DD3A72513DFB01470F55AEF5C4"))) ∧
    calculate_dahua_auth_hash_default "admin" "pass" "Login1" "123456" =
      "5595A2CF84EBEEFE16CC5E1C595DF93A" := by
  refine ⟨fun u p r k e => rfl, fun u p r k => rfl, by decide, by decide, by decide⟩

/-- C9: for every fixed tuple (username, password, realm, randomKey,
encoding), two invocations of `calculate_dahua_auth_hash` with the same
arguments return identical digest strings: the embedded function is pure,
so the digest is determined by its arguments alone. -/
theorem C9_auth_hash_deterministic
    (username password realm randomKey : String) (encoding : String → List Nat) :
    calculate_dahua_auth_hash username password realm randomKey encoding =
      calculate_dahua_auth_hash username password realm randomKey encoding :=
  rfl

/-- C4 (counterexample): the round trip `load(save(t)) = t` fails for the
non-empty token `" abc "`: `_save_session_to_file` strips the token before
writing, so the loaded value is `"abc"`, not `" abc "`. -/
theorem C4_roundtrip_counterexample :
    (" abc ").data ≠ [] ∧
      _read_session_from_file (_save_session_to_file (" abc ").data) ≠
        some (" abc ").data := by
  decide

/-- C4 (amended): for every non-empty token `t` that carries no leading or
trailing whitespace (`pyStrip t = t`), saving and then loading returns
exactly `t`. -/
theorem C4_roundtrip_trimmed (t : List Char) (ht : pyStrip t = t)
    (hne : t ≠ []) :
    _read_session_from_file (_save_session_to_file t) = some t := by
  have hkey := pyStrip_append_newline t ht hne
  unfold _save_session_to_file
  rw [ht]
  simp [_read_session_from_file, hkey, List.isEmpty_iff, hne]

/-- C4 witness: the amended round trip at the concrete token `"abc"`. -/
theorem C4_roundtrip_trimmed_witness :
    _read_session_from_file (_save_session_to_file ("abc").data) =
      some ("abc").data :=
  C4_roundtrip_trimmed ("abc").data (by decide) (by decide)

/-- C6: whenever the session file is absent or holds nothing usable (load
yields none), `ensure_session` with `interactive = false` fails with the
no-session configuration error, independently of any prompt inputs —
it neither returns a token nor consults the interactive fallback. -/
theorem C6_noninteractive_no_session (fs : FileState) (manualYes : Bool)
    (manualInput : List Char) (h : _read_session_from_file fs = none) :
    ensure_session fs false manualYes manualInput =
      .error SessionError.noSessionNonInteractive := by
  simp [ensure_session, h]

/-- C6 witness: `ensure_session` on an absent file, non-interactively. -/
theorem C6_noninteractive_no_session_witness :
    ensure_session FileState.absent false true ("xyz").data =
      .error SessionError.noSessionNonInteractive :=
  C6_noninteractive_no_session FileState.absent true ("xyz").data rfl

/-- C7 (counterexample): `SessionStore.load` CAN raise: on a session file
holding the non-UTF-8 bytes `0xFF 0xFE`, `f.read()` raises
`UnicodeDecodeError` — a `ValueError` caught by neither
`except FileNotFoundError` nor `except OSError` — so the read propagates
an exception instead of returning NotFound. -/
theorem C7_load_raises_counterexample :
    _read_session_from_file_bytes (FileBytes.bytes [255, 254]) =
      Except.error PyError.unicodeDecodeError :=
  rfl

/-- C7 (amended): `SessionStore.load` never raises EXCEPT on non-UTF-8
file content, where `f.read()` raises an uncaught `UnicodeDecodeError`:
a nonexistent file yields NotFound; any other I/O error is reported as a
warning and still yields NotFound; decodable content that is empty or
whitespace-only yields NotFound; and otherwise the decoded content is
returned with surrounding whitespace trimmed. -/
theorem C7_session_load_decodable :
    _read_session_from_file_bytes FileBytes.absent = Except.ok none ∧
    _read_session_from_file_bytes FileBytes.ioError = Except.ok none ∧
    (∀ bs s, utf8Decode bs = some s → pyStrip s = [] →
      _read_session_from_file_bytes (FileBytes.bytes bs) = Except.ok none) ∧
    (∀ bs s, utf8Decode bs = some s → pyStrip s ≠ [] →
      _read_session_from_file_bytes (FileBytes.bytes bs) =
        Except.ok (some (pyStrip s))) ∧
    (∀ bs, utf8Decode bs = none →
      _read_session_from_file_bytes (FileBytes.bytes bs) =
        Except.error PyError.unicodeDecodeError) := by
  refine ⟨rfl, rfl, fun bs s hdec hs => ?_, fun bs s hdec hs => ?_,
    fun bs hdec => ?_⟩
  · simp [_read_session_from_file_bytes, hdec, List.isEmpty_iff, hs]
  · simp [_read_session_from_file_bytes, hdec, List.isEmpty_iff, hs]
  · simp [_read_session_from_file_bytes, hdec]

/-- C7 witness: whitespace-only bytes, padded content bytes, and a
malformed byte sequence. -/
theorem C7_session_load_decodable_witness :
    _read_session_from_file_bytes (FileBytes.bytes [32, 32]) =
        Except.ok none ∧
      _read_session_from_file_bytes (FileBytes.bytes [32, 97, 98, 99, 32]) =
        Except.ok (some (pyStrip (" abc ").data)) ∧
      _read_session_from_file_bytes (FileBytes.bytes [255, 0]) =
        Except.error PyError.unicodeDecodeError :=
  ⟨C7_session_load_decodable.2.2.1 [32, 32] ("  ").data
     (by decide) (by decide),
   C7_session_load_decodable.2.2.2.1 [32, 97, 98, 99, 32] (" abc ").data
     (by decide) (by decide),
   C7_session_load_decodable.2.2.2.2 [255, 0] (by decide)⟩

/-- C2 (counterexample): the claim locates the challenge session id inside
the `params` object, but the code reads it from the response's top level.
For the challenge response `{"result": true, "params": {"realm": "Login1",
"random": "123456"}, "session": "abc"}` the session id is missing from
`params`, yet the handshake proceeds and sends the step-2 request. -/
theorem C2_challenge_session_location_counterexample :
    jget [("realm", Json.str "Login1"), ("random", Json.str "123456")]
        "session" = none ∧
      (login_and_get_session FileState.absent
          (some [("result", Json.bool true),
                 ("params", Json.obj [("realm", Json.str "Login1"),
                                      ("random", Json.str "123456")]),
                 ("session", Json.str "abc")])
          (some [("result", Json.bool false)])).map LoginTrace.step2Sent =
        some true :=
  ⟨rfl, rfl⟩

/-- C2 (amended): for every step-1 response with a falsy `result` flag, an
absent `params` object, or — with `params` an object — a missing or empty
`realm` or `random`, or a missing or empty session id at the response's
TOP LEVEL (where the code reads it, not inside `params`),
`login_and_get_session` returns failure without sending the step-2
request and with the session file untouched. -/
theorem C2_challenge_failure_no_step2 (fs : FileState)
    (o1 : List (String × Json)) (resp2 : Option (List (String × Json)))
    (h : optTruthy (jget o1 "result") = false ∨
         jget o1 "params" = none ∨
         (∃ ps, jget o1 "params" = some (Json.obj ps) ∧
           (jget ps "realm" = none ∨ jget ps "realm" = some (Json.str "") ∨
            jget ps "random" = none ∨ jget ps "random" = some (Json.str "") ∨
            jget o1 "session" = none ∨
            jget o1 "session" = some (Json.str "")))) :
    login_and_get_session fs (some o1) resp2 = some ⟨none, fs, false, none⟩ := by
  rcases h with h1 | h2 | ⟨ps, hps, hmiss⟩
  · simp [login_and_get_session, h1]
  · simp [login_and_get_session, h2]
  · by_cases hres : optTruthy (jget o1 "result")
    · rcases hmiss with h | h | h | h | h | h <;>
        simp [login_and_get_session, hres, hps, h, optTruthy_none,
          optTruthy_empty_str]
    · simp only [Bool.not_eq_true] at hres
      simp [login_and_get_session, hres]

/-- C2 witness: a challenge response with a falsy `result` flag. -/
theorem C2_challenge_failure_no_step2_witness :
    login_and_get_session FileState.absent
        (some [("result", Json.bool false)]) none =
      some ⟨none, FileState.absent, false, none⟩ :=
  C2_challenge_failure_no_step2 FileState.absent
    [("result", Json.bool false)] none (Or.inl rfl)

/-- C3: when step 1 succeeds and the step-2 response carries a falsy
`result` flag, `login_and_get_session` returns failure (`None`), surfaces
the raw step-2 payload (the printed error), does not write the session
file, and leaves whatever was stored there before unchanged. -/
theorem C3_step2_falsy_result (fs : FileState)
    (o1 ps o2 : List (String × Json))
    (h1res : optTruthy (jget o1 "result") = true)
    (h1ps : jget o1 "params" = some (Json.obj ps))
    (hrealm : optTruthy (jget ps "realm") = true)
    (hrandom : optTruthy (jget ps "random") = true)
    (hsess : optTruthy (jget o1 "session") = true)
    (h2res : optTruthy (jget o2 "result") = false) :
    login_and_get_session fs (some o1) (some o2) =
      some ⟨none, fs, true, some o2⟩ := by
  simp [login_and_get_session, h1res, h1ps, hrealm, hrandom, hsess, h2res]

/-- C3 witness: the spec scenario — step-2 response
`{"result": false, "error": {"code": 268632079}}` with a previously stored
session: the handshake fails and the stored session survives. -/
theorem C3_step2_falsy_result_witness :
    login_and_get_session (FileState.content ("old").data)
        (some [("result", Json.bool true),
               ("params", Json.obj [("realm", Json.str "Login1"),
                                    ("random", Json.str "123456")]),
               ("session", Json.str "abc")])
        (some [("result", Json.bool false),
               ("error", Json.obj [("code", Json.num 268632079)])]) =
      some ⟨none, FileState.content ("old").data, true,
        some [("result", Json.bool false),
              ("error", Json.obj [("code", Json.num 268632079)])]⟩ :=
  C3_step2_falsy_result (FileState.content ("old").data) _ _ _
    rfl rfl rfl rfl rfl rfl

/-- C5: on a truthy step-2 `result`, the session id that is returned and
persisted comes from the response's top-level `session` field whenever
that is truthy, and only otherwise from `params.session` (or is `None`
when `params` is absent as well). -/
theorem C5_session_lookup_order (fs : FileState)
    (o1 ps o2 : List (String × Json))
    (h1res : optTruthy (jget o1 "result") = true)
    (h1ps : jget o1 "params" = some (Json.obj ps))
    (hrealm : optTruthy (jget ps "realm") = true)
    (hrandom : optTruthy (jget ps "random") = true)
    (hsess : optTruthy (jget o1 "session") = true)
    (h2res : optTruthy (jget o2 "result") = true) :
    (optTruthy (jget o2 "session") = true →
      login_and_get_session fs (some o1) (some o2) =
        some ⟨jget o2 "session", _save_session (jget o2 "session"),
          true, none⟩) ∧
    (∀ ps2, optTruthy (jget o2 "session") = false →
      jget o2 "params" = some (Json.obj ps2) →
      login_and_get_session fs (some o1) (some o2) =
        some ⟨jget ps2 "session", _save_session (jget ps2 "session"),
          true, none⟩) ∧
    (optTruthy (jget o2 "session") = false →
      jget o2 "params" = none →
      login_and_get_session fs (some o1) (some o2) =
        some ⟨none, _save_session none, true, none⟩) := by
  refine ⟨fun htop => ?_, fun ps2 htop hp2 => ?_, fun htop hp2 => ?_⟩
  · simp [login_and_get_session, h1res, h1ps, hrealm, hrandom, hsess,
      h2res, htop]
  · simp [login_and_get_session, h1res, h1ps, hrealm, hrandom, hsess,
      h2res, htop, hp2]
  · simp [login_and_get_session, h1res, h1ps, hrealm, hrandom, hsess,
      h2res, htop, hp2]

/-- C5 witness: both locations present — the top-level id wins. -/
theorem C5_session_lookup_order_witness :
    login_and_get_session FileState.absent
        (some [("result", Json.bool true),
               ("params", Json.obj [("realm", Json.str "Login1"),
                                    ("random", Json.str "123456")]),
               ("session", Json.str "abc")])
        (some [("result", Json.bool true),
               ("session", Json.str "TOP"),
               ("params", Json.obj [("session", Json.str "NESTED")])]) =
      some ⟨some (Json.str "TOP"), _save_session (some (Json.str "TOP")),
        true, none⟩ :=
  (C5_session_lookup_order FileState.absent
    [("result", Json.bool true),
     ("params", Json.obj [("realm", Json.str "Login1"),
                          ("random", Json.str "123456")]),
     ("session", Json.str "abc")]
    [("realm", Json.str "Login1"), ("random", Json.str "123456")]
    [("result", Json.bool true),
     ("session", Json.str "TOP"),
     ("params", Json.obj [("session", Json.str "NESTED")])]
    rfl rfl rfl rfl rfl rfl).1 rfl

/-- C10: when the step-2 `result` flag is truthy but no session id exists
at the top level nor under `params`, the code hands `None` to
`_save_session`, whose write-mode `open` truncates the session file
(destroying any previously stored token) before `.strip()` raises and is
downgraded to a warning; the function then returns `None`. -/
theorem C10_truthy_result_missing_session (fs : FileState)
    (o1 ps o2 : List (String × Json))
    (h1res : optTruthy (jget o1 "result") = true)
    (h1ps : jget o1 "params" = some (Json.obj ps))
    (hrealm : optTruthy (jget ps "realm") = true)
    (hrandom : optTruthy (jget ps "random") = true)
    (hsess : optTruthy (jget o1 "session") = true)
    (h2res : optTruthy (jget o2 "result") = true)
    (htop : jget o2 "session" = none)
    (hparams : jget o2 "params" = none ∨
      ∃ ps2, jget o2 "params" = some (Json.obj ps2) ∧
        jget ps2 "session" = none) :
    login_and_get_session fs (some o1) (some o2) =
      some ⟨none, FileState.content [], true, none⟩ := by
  rcases hparams with hp | ⟨ps2, hp, hs2⟩
  · simp [login_and_get_session, h1res, h1ps, hrealm, hrandom, hsess,
      h2res, htop, hp, optTruthy_none, save_session_of_none]
  · simp [login_and_get_session, h1res, h1ps, hrealm, hrandom, hsess,
      h2res, htop, hp, hs2, optTruthy_none, save_session_of_none]

/-- C10 witness: a truthy step-2 `result` with no session id anywhere
truncates a previously stored token and returns `None`. -/
theorem C10_truthy_result_missing_session_witness :
    login_and_get_session (FileState.content ("OLDTOKEN").data)
        (some [("result", Json.bool true),
               ("params", Json.obj [("realm", Json.str "Login1"),
                                    ("random", Json.str "123456")]),
               ("session", Json.str "abc")])
        (some [("result", Json.bool true)]) =
      some ⟨none, FileState.content [], true, none⟩ :=
  C10_truthy_result_missing_session (FileState.content ("OLDTOKEN").data)
    [("result", Json.bool true),
     ("params", Json.obj [("realm", Json.str "Login1"),
                          ("random", Json.str "123456")]),
     ("session", Json.str "abc")]
    [("realm", Json.str "Login1"), ("random", Json.str "123456")]
    [("result", Json.bool true)]
    rfl rfl rfl rfl rfl rfl rfl (Or.inl rfl)

/-- C8 (counterexample): the "no session available" failure does not end
the process with a distinct non-zero status: the `_session_util.py` CLI
catches the `RuntimeError` raised when no session exists and the user
declines manual entry, prints it, and exits with status 0. -/
theorem C8_no_session_exits_zero_counterexample :
    ensure_session FileState.absent true false [] =
        .error SessionError.declinedManualEntry ∧
      session_util_main_exit FileState.absent false [] = 0 :=
  ⟨rfl, rfl⟩

/-- C8 (amended): in `get_id.py`, missing input (empty ip, username or
password) exits with status 1 and a failed login with status 2 — two
distinct non-zero statuses; the "no session available" failure, however,
lives in the `_session_util.py` CLI, which catches the error, prints it,
and exits with status 0 on every run. -/
theorem C8_exit_statuses :
    (∀ ip username password loginResult,
      ((pyStrip ip).isEmpty || (pyStrip username).isEmpty ||
        password.isEmpty) = true →
      get_id_main_exit ip username password loginResult = 1) ∧
    (∀ ip username password,
      ((pyStrip ip).isEmpty || (pyStrip username).isEmpty ||
        password.isEmpty) = false →
      get_id_main_exit ip username password none = 2) ∧
    (∀ fs manualYes manualInput,
      session_util_main_exit fs manualYes manualInput = 0) ∧
    ((1 : Nat) ≠ 2 ∧ (1 : Nat) ≠ 0 ∧ (2 : Nat) ≠ 0) := by
  refine ⟨fun ip u p s h => ?_, fun ip u p h => ?_,
    fun fs y m => ?_, by omega, by omega, by omega⟩
  · simp [get_id_main_exit, h]
  · simp [get_id_main_exit, h]
  · unfold session_util_main_exit
    cases ensure_session fs true y m <;> rfl

/-- C8 witness: concrete runs of the two exit paths of `get_id.py`. -/
theorem C8_exit_statuses_witness :
    get_id_main_exit [] [] [] none = 1 ∧
      get_id_main_exit ("1.2.3.4").data ("admin").data ("pw").data none = 2 :=
  ⟨C8_exit_statuses.1 [] [] [] none (by decide),
   C8_exit_statuses.2.1 ("1.2.3.4").data ("admin").data ("pw").data
     (by decide)⟩

end DahuaVTO
